import Mathlib

/-!
# IssueTrackerClient.h : GitHub / Trello clients and the issue sync manager

A shallow embedding of `src/api/src/IssueTrackerClient.h`.

* `int` is `Int` (the header only passes ids around and prints them, it never
  computes with them); `std::string` is `String`; `std::vector` is `List`.
* `std::cout` is one character stream, a `String`; `std::endl` appends `"\n"`.
* A client method is a value paired with the text it prints.
* `IssueSyncManager` reaches its two clients through pointers.  So that a
  statement can range over what `fetchIssues` returns and over what `createCard`
  answers, the manager is embedded over the behaviour found behind those
  pointers (`GitHubClient`, `TrelloClient`); the header's own classes
  `GitHubAPI` and `TrelloAPI` are the instances `GitHubAPI.toClient` and
  `TrelloAPI.toClient`.  Their methods are not virtual, so a manager of the
  header is always `IssueSyncManager.ofHeader github trello`; statements that
  hold only because `GitHubAPI::fetchIssues` returns `{}` are made on that
  manager.
* Every client call the manager makes is appended to a log (`World.calls`).
-/

namespace IssueTracker

/-! ## Data model -/

/-- The `struct GitHubIssue` of the header. -/
structure GitHubIssue where
  id : Int
  title : String
  body : String
  url : String
  state : String
  deriving DecidableEq, Repr

/-- The `struct TrelloCard` of the header. -/
structure TrelloCard where
  id : String
  name : String
  desc : String
  deriving DecidableEq, Repr

/-- One call of a client method, with its arguments. -/
inductive Call where
  | fetchIssues (owner repo : String)
  | closeIssue (owner repo : String) (issueId : Int)
  | commentOnIssue (owner repo : String) (issueId : Int) (comment : String)
  | createCard (listId : String) (card : TrelloCard)
  | moveCardToList (cardId listId : String)
  | getCardsFromList (listId : String)
  deriving DecidableEq, Repr

/-- What can be observed of a run: the client calls made so far, oldest first,
and the text written to `std::cout`. -/
structure World where
  calls : List Call
  out : String
  deriving DecidableEq, Repr

/-- A client call: it is logged and the text the client prints reaches
`std::cout`. -/
def World.invoke (w : World) (c : Call) (printed : String) : World :=
  { calls := w.calls ++ [c], out := w.out ++ printed }

/-- The manager itself writes to `std::cout`. -/
def World.print (w : World) (text : String) : World :=
  { w with out := w.out ++ text }

/-! ## The placeholder clients of the header -/

/-- The `class GitHubAPI` of the header: its only state is the token. -/
structure GitHubAPI where
  authToken : String
  deriving DecidableEq, Repr

/-- Method `GitHubAPI::fetchIssues`: prints one line, returns `{}`. -/
def GitHubAPI.fetchIssues (_self : GitHubAPI) (owner repo : String) :
    List GitHubIssue × String :=
  ([], "Fetching issues for " ++ owner ++ "/" ++ repo ++ "\n")

/-- Method `GitHubAPI::closeIssue`: prints one line, returns `true`. -/
def GitHubAPI.closeIssue (_self : GitHubAPI) (owner repo : String) (issueId : Int) :
    Bool × String :=
  (true, "Closing issue #" ++ toString issueId ++ " on " ++ owner ++ "/" ++ repo ++ "\n")

/-- Method `GitHubAPI::commentOnIssue`: prints one line, returns `true`. -/
def GitHubAPI.commentOnIssue (_self : GitHubAPI) (_owner _repo : String) (issueId : Int)
    (comment : String) : Bool × String :=
  (true, "Commenting on issue #" ++ toString issueId ++ ": " ++ comment ++ "\n")

/-- The `class TrelloAPI` of the header: its only state is the key and token. -/
structure TrelloAPI where
  apiKey : String
  apiToken : String
  deriving DecidableEq, Repr

/-- Method `TrelloAPI::createCard`: prints one line, returns `true`. -/
def TrelloAPI.createCard (_self : TrelloAPI) (_listId : String) (card : TrelloCard) :
    Bool × String :=
  (true, "Creating Trello card: " ++ card.name ++ "\n")

/-- Method `TrelloAPI::moveCardToList`: prints one line, returns `true`. -/
def TrelloAPI.moveCardToList (_self : TrelloAPI) (cardId listId : String) :
    Bool × String :=
  (true, "Moving card " ++ cardId ++ " to list " ++ listId ++ "\n")

/-- Method `TrelloAPI::getCardsFromList`: prints one line, returns `{}`. -/
def TrelloAPI.getCardsFromList (_self : TrelloAPI) (listId : String) :
    List TrelloCard × String :=
  ([], "Fetching cards from list " ++ listId ++ "\n")

/-! ## Client behaviour seen by the manager -/

/-- What stands behind the manager's `GitHubAPI*`: each method answers with a
value and the text it prints; the answer may depend on the calls made before
(the first argument), which covers any deterministic client. -/
structure GitHubClient where
  fetchIssues : List Call → String → String → List GitHubIssue × String
  closeIssue : List Call → String → String → Int → Bool × String
  commentOnIssue : List Call → String → String → Int → String → Bool × String

/-- What stands behind the manager's `TrelloAPI*`. -/
structure TrelloClient where
  createCard : List Call → String → TrelloCard → Bool × String
  moveCardToList : List Call → String → String → Bool × String
  getCardsFromList : List Call → String → List TrelloCard × String

/-- The header's `GitHubAPI` as a client: its answers ignore the history. -/
def GitHubAPI.toClient (self : GitHubAPI) : GitHubClient :=
  { fetchIssues := fun _ owner repo => self.fetchIssues owner repo
    closeIssue := fun _ owner repo issueId => self.closeIssue owner repo issueId
    commentOnIssue := fun _ owner repo issueId comment =>
      self.commentOnIssue owner repo issueId comment }

/-- The header's `TrelloAPI` as a client: its answers ignore the history. -/
def TrelloAPI.toClient (self : TrelloAPI) : TrelloClient :=
  { createCard := fun _ listId card => self.createCard listId card
    moveCardToList := fun _ cardId listId => self.moveCardToList cardId listId
    getCardsFromList := fun _ listId => self.getCardsFromList listId }

/-! ## Issue sync manager -/

/-- The `class IssueSyncManager` of the header: two client handles. -/
structure IssueSyncManager where
  githubApi : GitHubClient
  trelloApi : TrelloClient

/-- The card built in the loop body of `syncGitHubIssuesToTrello`: a default
constructed `TrelloCard` (empty `id`) whose `name` and `desc` are then assigned. -/
def cardOfIssue (issue : GitHubIssue) : TrelloCard :=
  { id := ""
    name := issue.title
    desc := issue.body ++ "\n\nGitHub URL: " ++ issue.url }

/-- One iteration of the loop of `syncGitHubIssuesToTrello`: build the card,
call `createCard`, drop the returned `bool`. -/
def IssueSyncManager.syncStep (self : IssueSyncManager) (listId : String)
    (w : World) (issue : GitHubIssue) : World :=
  let card := cardOfIssue issue
  let r := self.trelloApi.createCard w.calls listId card
  w.invoke (Call.createCard listId card) r.2

/-- Method `IssueSyncManager::syncGitHubIssuesToTrello`: fetch the issues, then
for each one, in the order of the vector, build a card and call `createCard`. -/
def IssueSyncManager.syncGitHubIssuesToTrello (self : IssueSyncManager)
    (owner repo listId : String) (w : World) : World :=
  let r := self.githubApi.fetchIssues w.calls owner repo
  let issues := r.1
  let w1 := w.invoke (Call.fetchIssues owner repo) r.2
  issues.foldl (self.syncStep listId) w1

/-- Method `IssueSyncManager::closeGitHubIssueFromTrelloCard`: call `closeIssue`
and print one line when it returned `true`. -/
def IssueSyncManager.closeGitHubIssueFromTrelloCard (self : IssueSyncManager)
    (cardId owner repo : String) (issueId : Int) (w : World) : World :=
  let r := self.githubApi.closeIssue w.calls owner repo issueId
  let closed := r.1
  let w1 := w.invoke (Call.closeIssue owner repo issueId) r.2
  if closed then
    w1.print ("Closed issue #" ++ toString issueId ++ " due to Trello card " ++ cardId ++ "\n")
  else
    w1

/-! ## Observations used in the statements -/

/-- The list of issues `fetchIssues` hands to a pass started in world `w`. -/
def fetched (self : IssueSyncManager) (owner repo : String) (w : World) : List GitHubIssue :=
  (self.githubApi.fetchIssues w.calls owner repo).1

/-- The calls made between two worlds of one run. -/
def issuedCalls (before after : World) : List Call :=
  after.calls.drop before.calls.length

/-- Is this call a `createCard`? -/
def Call.isCreateCard : Call → Bool
  | Call.createCard _ _ => true
  | _ => false

/-- The `createCard` calls of a log, in order. -/
def createCardCalls (cs : List Call) : List Call :=
  cs.filter Call.isCreateCard

/-! ## The order the specification speaks of -/

/-- The constructor `IssueSyncManager(GitHubAPI* github, TrelloAPI* trello)`:
the two handles are the header's own classes, whose methods are not virtual,
so these are the only clients a manager of the header can hold. -/
def IssueSyncManager.ofHeader (github : GitHubAPI) (trello : TrelloAPI) : IssueSyncManager :=
  { githubApi := github.toClient, trelloApi := trello.toClient }

/-- A manager of the header, built on a `GitHubAPI` with token "t" and a
`TrelloAPI` with key "k" and token "t". -/
def headerManager : IssueSyncManager :=
  IssueSyncManager.ofHeader (GitHubAPI.mk "t") (TrelloAPI.mk "k" "t")

/-- The start of a run: no call made, nothing printed. -/
def emptyWorld : World :=
  { calls := [], out := "" }

theorem foldl_syncStep_calls (self : IssueSyncManager) (listId : String)
    (issues : List GitHubIssue) (w : World) :
    (issues.foldl (self.syncStep listId) w).calls =
      w.calls ++ issues.map (fun issue => Call.createCard listId (cardOfIssue issue)) := by
  induction issues generalizing w with
  | nil => simp
  | cons issue rest ih =>
    simp only [List.foldl_cons, List.map_cons]
    rw [ih]
    simp [IssueSyncManager.syncStep, World.invoke]

theorem sync_calls (self : IssueSyncManager) (owner repo listId : String) (w : World) :
    (self.syncGitHubIssuesToTrello owner repo listId w).calls =
      w.calls ++ Call.fetchIssues owner repo ::
        (fetched self owner repo w).map
          (fun issue => Call.createCard listId (cardOfIssue issue)) := by
  simp [IssueSyncManager.syncGitHubIssuesToTrello, foldl_syncStep_calls, World.invoke, fetched]

theorem issuedCalls_sync (self : IssueSyncManager) (owner repo listId : String) (w : World) :
    issuedCalls w (self.syncGitHubIssuesToTrello owner repo listId w) =
      Call.fetchIssues owner repo ::
        (fetched self owner repo w).map
          (fun issue => Call.createCard listId (cardOfIssue issue)) := by
  simp [issuedCalls, sync_calls]

theorem createCardCalls_map (listId : String) (issues : List GitHubIssue) :
    createCardCalls (issues.map (fun issue => Call.createCard listId (cardOfIssue issue))) =
      issues.map (fun issue => Call.createCard listId (cardOfIssue issue)) := by
  induction issues with
  | nil => rfl
  | cons issue rest ih =>
    simp only [createCardCalls] at ih
    simp [createCardCalls, Call.isCreateCard, ih]

theorem createCardCalls_sync (self : IssueSyncManager) (owner repo listId : String)
    (w : World) :
    createCardCalls (issuedCalls w (self.syncGitHubIssuesToTrello owner repo listId w)) =
      (fetched self owner repo w).map
        (fun issue => Call.createCard listId (cardOfIssue issue)) := by
  rw [issuedCalls_sync]
  have h := createCardCalls_map listId (fetched self owner repo w)
  simp only [createCardCalls] at h ⊢
  simp [Call.isCreateCard, h]

theorem close_calls (self : IssueSyncManager) (cardId owner repo : String) (issueId : Int)
    (w : World) :
    (self.closeGitHubIssueFromTrelloCard cardId owner repo issueId w).calls =
      w.calls ++ [Call.closeIssue owner repo issueId] := by
  unfold IssueSyncManager.closeGitHubIssueFromTrelloCard
  by_cases h : (self.githubApi.closeIssue w.calls owner repo issueId).1 = true <;>
    simp [h, World.invoke, World.print]

theorem closedLine_ne_empty (cardId : String) (issueId : Int) :
    "Closed issue #" ++ toString issueId ++ " due to Trello card " ++ cardId ++ "\n" ≠ "" := by
  intro h
  have hlen := congrArg String.length h
  simp only [String.length_append] at hlen
  have h1 : ("\n" : String).length = 1 := by decide
  have h0 : ("" : String).length = 0 := by decide
  omega

theorem string_append_right_cancel (a b : String) (h : a = a ++ b) : b = "" := by
  have hlen := congrArg String.length h
  simp only [String.length_append] at hlen
  have hb : b.length = 0 := by omega
  cases b with
  | mk data =>
    have hd : data = [] := List.length_eq_zero.mp hb
    subst hd
    rfl

/-! ## The claims -/

/-- C1: a sync pass issues exactly one `createCard` call per fetched issue, in
the fetched order, each with the given list id and a card whose name is the
issue's title and whose desc is the issue's body, then "\n\nGitHub URL: ", then
the issue's url. -/
theorem sync_creates_one_card_per_issue (self : IssueSyncManager)
    (owner repo listId : String) (w : World) :
    createCardCalls (issuedCalls w (self.syncGitHubIssuesToTrello owner repo listId w)) =
      (fetched self owner repo w).map (fun issue =>
        Call.createCard listId
          { id := "", name := issue.title,
            desc := issue.body ++ "\n\nGitHub URL: " ++ issue.url }) :=
  createCardCalls_sync self owner repo listId w

/-- C1, on the manager of the header: `fetchIssues` hands over the empty list
and the pass issues the `createCard` calls of that list, none. -/
theorem sync_creates_one_card_per_issue_witness :
    fetched headerManager "o" "r" emptyWorld = [] ∧
    createCardCalls (issuedCalls emptyWorld
        (headerManager.syncGitHubIssuesToTrello
          "o" "r" "L1" emptyWorld)) = [] :=
  ⟨rfl, by
    rw [sync_creates_one_card_per_issue headerManager "o" "r" "L1" emptyWorld]
    rfl⟩

/-- C4: the calls of a pass do not depend on what `createCard` answers: two
Trello clients, whatever booleans they return, see the same log, and each sees
one `createCard` call per fetched issue, in the fetched order. -/
theorem sync_calls_independent_of_createCard_results (gh : GitHubClient)
    (tr1 tr2 : TrelloClient) (owner repo listId : String) (w : World) :
    ((IssueSyncManager.mk gh tr1).syncGitHubIssuesToTrello owner repo listId w).calls =
      ((IssueSyncManager.mk gh tr2).syncGitHubIssuesToTrello owner repo listId w).calls ∧
    createCardCalls (issuedCalls w
        ((IssueSyncManager.mk gh tr1).syncGitHubIssuesToTrello owner repo listId w)) =
      (gh.fetchIssues w.calls owner repo).1.map
        (fun issue => Call.createCard listId (cardOfIssue issue)) := by
  refine ⟨?_, ?_⟩
  · rw [sync_calls, sync_calls]
    rfl
  · rw [createCardCalls_sync]
    rfl

/-- C6: every operation of the two placeholder clients returns a fixed success
value, whatever its arguments and the credentials of the client: the four
`bool` operations return `true`, the two list operations return the empty
list. -/
theorem placeholder_clients_return_fixed_values (gh : GitHubAPI) (tr : TrelloAPI)
    (owner repo comment listId cardId : String) (issueId : Int) (card : TrelloCard) :
    (gh.closeIssue owner repo issueId).1 = true ∧
    (gh.commentOnIssue owner repo issueId comment).1 = true ∧
    (tr.createCard listId card).1 = true ∧
    (tr.moveCardToList cardId listId).1 = true ∧
    (gh.fetchIssues owner repo).1 = [] ∧
    (tr.getCardsFromList listId).1 = [] :=
  ⟨rfl, rfl, rfl, rfl, rfl, rfl⟩

/-- C7: `closeGitHubIssueFromTrelloCard` makes exactly one client call, the
`closeIssue` with the given owner, repo and issue id, whatever the client
answers. -/
theorem close_issues_exactly_one_closeIssue (self : IssueSyncManager)
    (cardId owner repo : String) (issueId : Int) (w : World) :
    issuedCalls w (self.closeGitHubIssueFromTrelloCard cardId owner repo issueId w) =
      [Call.closeIssue owner repo issueId] := by
  simp [issuedCalls, close_calls]

/-- C9: after `closeGitHubIssueFromTrelloCard`, `std::cout` holds what it held
before, then what `closeIssue` printed, then the line "Closed issue #<issueId>
due to Trello card <cardId>" exactly when `closeIssue` returned `true`; when it
returned `false` the manager adds nothing. -/
theorem close_reports_only_success (self : IssueSyncManager)
    (cardId owner repo : String) (issueId : Int) (w : World) :
    ((self.closeGitHubIssueFromTrelloCard cardId owner repo issueId w).out =
        w.out ++ (self.githubApi.closeIssue w.calls owner repo issueId).2 ++
          ("Closed issue #" ++ toString issueId ++ " due to Trello card " ++ cardId ++ "\n") ↔
      (self.githubApi.closeIssue w.calls owner repo issueId).1 = true) ∧
    ((self.githubApi.closeIssue w.calls owner repo issueId).1 = false →
      (self.closeGitHubIssueFromTrelloCard cardId owner repo issueId w).out =
        w.out ++ (self.githubApi.closeIssue w.calls owner repo issueId).2) := by
  unfold IssueSyncManager.closeGitHubIssueFromTrelloCard
  by_cases h : (self.githubApi.closeIssue w.calls owner repo issueId).1 = true
  · simp [h, World.invoke, World.print]
  · simp only [h, Bool.false_eq_true, if_false, World.invoke, iff_false, implies_true,
      and_true]
    intro hout
    exact closedLine_ne_empty cardId issueId (string_append_right_cancel _ _ hout)

/-- C9, on the manager of the header: `closeIssue` returns `true` and the line is
printed after the text of `closeIssue`. -/
theorem close_reports_only_success_witness :
    ((GitHubAPI.mk "t").toClient.closeIssue emptyWorld.calls "o" "r" 7).1 = true ∧
    (headerManager.closeGitHubIssueFromTrelloCard
        "c9" "o" "r" 7 emptyWorld).out =
      "Closing issue #7 on o/r\nClosed issue #7 due to Trello card c9\n" :=
  ⟨rfl,
    (close_reports_only_success headerManager "c9" "o" "r" 7 emptyWorld).1.mpr rfl⟩

/-- C10: with the header's own `GitHubAPI` and `TrelloAPI` a sync pass issues
no `createCard` call (its only call is the `fetchIssues`) and all it adds to
`std::cout` is the line "Fetching issues for <owner>/<repo>". -/
theorem sync_with_placeholder_clients_is_noop (token key apiToken : String)
    (owner repo listId : String) (w : World) :
    createCardCalls (issuedCalls w
        ((IssueSyncManager.mk (GitHubAPI.mk token).toClient
            (TrelloAPI.mk key apiToken).toClient).syncGitHubIssuesToTrello
          owner repo listId w)) = [] ∧
    issuedCalls w
        ((IssueSyncManager.mk (GitHubAPI.mk token).toClient
            (TrelloAPI.mk key apiToken).toClient).syncGitHubIssuesToTrello
          owner repo listId w) = [Call.fetchIssues owner repo] ∧
    ((IssueSyncManager.mk (GitHubAPI.mk token).toClient
          (TrelloAPI.mk key apiToken).toClient).syncGitHubIssuesToTrello
        owner repo listId w).out =
      w.out ++ ("Fetching issues for " ++ owner ++ "/" ++ repo ++ "\n") := by
  refine ⟨?_, ?_, ?_⟩
  · rw [createCardCalls_sync]
    rfl
  · rw [issuedCalls_sync]
    rfl
  · rfl

end IssueTracker
